import Mathlib

/-!
# Verification of the inference-gateway repository ("mix")

The repository ships a React frontend (under `frontend/client/src`) that talks
to a FastAPI backend at `/api/...`.  The backend source (`backend/app/...`,
documented in `README.md`, `plan.md` and `DashboardLayout.tsx`) is not part of
the provided sources; where a claim is decided by that missing backend code we
model it from the specification (definitions marked `Modelled from the spec:`).
Frontend behaviour (the `APIClient` class, `Chat.tsx`, `ImageGeneration.tsx`)
is embedded directly from the TypeScript sources.
-/

namespace Mix

/-! ## Tasks (spec §3: the supported modalities) -/

/-- The task enum from the spec data model: the eight supported modalities. -/
inductive Task where
  | textGen
  | embedding
  | tts
  | stt
  | imageGenerate
  | imageEdit
  | textToVideo
  | imageToVideo
deriving DecidableEq

/-! ## Upstream Transport outcomes (spec §4.1), modelled from the spec -/

/-- Modelled from the spec: the `RawOutcome` of a single Upstream Transport
call (the backend HTTP client is not in the provided sources).  A response
carries its HTTP status; a timeout expiry and a connection-level error are
distinct transport-level outcomes. -/
inductive RawOutcome where
  | http (status : Nat)
  | timeoutExpiry
  | connError
deriving DecidableEq

/-- Modelled from the spec: the transient/permanent classification of a raw
outcome (spec §4.2). -/
inductive Classified where
  | success (raw : RawOutcome)
  | transientFailure (reason : String)
  | permanentFailure (reason : String)
deriving DecidableEq

/-- Modelled from the spec: classification rule of §4.2.  HTTP 5xx, timeout
expiry and connection-level errors are transient; HTTP 429 is transient;
other HTTP 4xx are permanent; anything else is a success. -/
def classify (r : RawOutcome) : Classified :=
  match r with
  | .timeoutExpiry => .transientFailure "timeout"
  | .connError => .transientFailure "connection"
  | .http s =>
    if 500 ≤ s then .transientFailure "http-5xx"
    else if s = 429 then .transientFailure "http-429"
    else if 400 ≤ s then .permanentFailure "http-4xx"
    else .success (.http s)

/-- Whether a classified outcome is a failure (transient or permanent). -/
def isFailure : Classified → Bool
  | .success _ => false
  | .transientFailure _ => true
  | .permanentFailure _ => true

/-- The stable classification tag of the error taxonomy (spec §7) attached to
a classified failure. -/
def tagOf : Classified → String
  | .success _ => "Success"
  | .transientFailure _ => "UpstreamTransient"
  | .permanentFailure _ => "ModelUnavailable"

/-! ## Retry Policy (spec §4.2), modelled from the spec -/

/-- Modelled from the spec: the retry-policy parameters
(`maxAttempts`, `baseDelay`, `multiplier`, `maxDelay`); delays in
milliseconds. -/
structure RetryConfig where
  maxAttempts : Nat
  baseDelay : Nat
  multiplier : Nat
  maxDelay : Nat
deriving DecidableEq

/-- The spec's default retry configuration: 4 total tries, 1 s base delay,
2x multiplier, 60 s delay cap (matching the backend documentation embedded
in `DashboardLayout.tsx`). -/
def defaultRetryConfig : RetryConfig :=
  { maxAttempts := 4, baseDelay := 1000, multiplier := 2, maxDelay := 60000 }

/-- The backoff slept after transient attempt number `n` (1-based):
`min (baseDelay * multiplier ^ (n - 1)) maxDelay`. -/
def backoffDelay (cfg : RetryConfig) (n : Nat) : Nat :=
  min (cfg.baseDelay * cfg.multiplier ^ (n - 1)) cfg.maxDelay

/-- Modelled from the spec: the retry loop.  `retryGo f cfg n fuel` performs
attempt number `n` (calling `f n`) with `fuel` further tries allowed; on a
transient failure it records the backoff delay and retries, otherwise it
stops immediately.  Returns the final outcome, the number of the last
attempt made (= total number of calls when starting at `n = 1`), and the
list of delays slept. -/
def retryGo (f : Nat → Classified) (cfg : RetryConfig) :
    Nat → Nat → Classified × Nat × List Nat
  | n, 0 => (f n, n, [])
  | n, fuel + 1 =>
    match f n with
    | .transientFailure _ =>
      let rest := retryGo f cfg (n + 1) fuel
      (rest.1, rest.2.1, backoffDelay cfg n :: rest.2.2)
    | o => (o, n, [])

/-- Modelled from the spec: `withRetry` wraps an attempt function with up to
`cfg.maxAttempts` total tries. -/
def withRetry (f : Nat → Classified) (cfg : RetryConfig) :
    Classified × Nat × List Nat :=
  retryGo f cfg 1 (cfg.maxAttempts - 1)

/-! ## Model Fallback Chain (spec §4.3), modelled from the spec -/

/-- Modelled from the spec: `resolveCandidates` (the backend fallback-chain
code is not in the provided sources).  A requested model is priority 0,
followed by the task's configured fallback list in order, skipping entries
equal to the requested model; with no requested model the chain is exactly
the configured list. -/
def resolveCandidates (config : List String) : Option String → List String
  | none => config
  | some r => r :: config.filter (fun m => m != r)

/-- The statically configured image-generation model list, transcribed from
`ImageGeneration.tsx` (the `models` constant). -/
def imageGenerationModels : List String :=
  ["stabilityai/stable-diffusion-3-medium",
   "black-forest-labs/FLUX.1-dev",
   "runwayml/stable-diffusion-v1-5"]

/-! ## Orchestrator (spec §4.5), modelled from the spec -/

/-- Modelled from the spec: the single coherent error returned when every
candidate fails (spec §4.3 exhaustion and §7): a stable classification tag,
the last model attempted, the total elapsed time and the attempt count. -/
structure GatewayError where
  tag : String
  lastModel : String
  elapsedMillis : Nat
  attempts : Nat
deriving DecidableEq

/-- The JSON field names of `GatewayError`, in declaration order. -/
def gatewayErrorFields : List String :=
  ["tag", "lastModel", "elapsedMillis", "attempts"]

/-- Terminal state of one orchestrated request (spec §4.5). -/
inductive OrchResult where
  | succeeded (modelUsed : String) (raw : RawOutcome) (elapsedMillis : Nat)
  | exhausted (err : GatewayError)
deriving DecidableEq

/-- An orchestration run together with the log of transport invocations
(one model id per transport call, in order). -/
structure OrchTrace where
  result : OrchResult
  callLog : List String
deriving DecidableEq

/-- One candidate's retried attempt: retry policy around the classified
transport call.  `transport m n` is the raw outcome of the `n`-th transport
call for model `m`. -/
def attemptModel (transport : String → Nat → RawOutcome) (cfg : RetryConfig)
    (m : String) : Classified × Nat × List Nat :=
  withRetry (fun n => classify (transport m n)) cfg

/-- Modelled from the spec: the Orchestrator's walk of the fallback chain
(spec §4.5).  Each candidate gets a retried attempt; the first success is
returned with the candidate as `modelUsed`; any failure (permanent, or
transient with retries exhausted) advances the chain; when the chain is
exhausted, a single `GatewayError` is produced carrying the tag of the last
candidate's failure, the last model attempted, the accumulated elapsed time
and the accumulated attempt count. -/
def orchestrateGo (transport : String → Nat → RawOutcome) (cfg : RetryConfig) :
    List String → Nat → Nat → OrchTrace
  | [], elapsed, attempts =>
    ⟨.exhausted ⟨"ConfigurationError", "", elapsed, attempts⟩, []⟩
  | m :: rest, elapsed, attempts =>
    let a := attemptModel transport cfg m
    let elapsed' := elapsed + a.2.2.sum
    let attempts' := attempts + a.2.1
    let log := List.replicate a.2.1 m
    match a.1 with
    | .success raw => ⟨.succeeded m raw elapsed', log⟩
    | o =>
      match rest with
      | [] => ⟨.exhausted ⟨tagOf o, m, elapsed', attempts'⟩, log⟩
      | _ :: _ =>
        let t := orchestrateGo transport cfg rest elapsed' attempts'
        ⟨t.result, log ++ t.callLog⟩

/-- Modelled from the spec: orchestrate one request over a candidate chain. -/
def orchestrate (transport : String → Nat → RawOutcome) (cfg : RetryConfig)
    (candidates : List String) : OrchTrace :=
  orchestrateGo transport cfg candidates 0 0

/-- Total backoff delay slept across a candidate chain. -/
def totalDelays (transport : String → Nat → RawOutcome) (cfg : RetryConfig)
    (candidates : List String) : Nat :=
  (candidates.map (fun m => (attemptModel transport cfg m).2.2.sum)).sum

/-! ## Upstream call with timeout (spec §4.1), modelled from the spec -/

/-- Modelled from the spec: one transport call against a simulated network.
`status = none` models a connection-level failure (connection refused / DNS);
`status = some s` models a server reply with HTTP status `s` arriving after
`latency` milliseconds.  The supplied `timeout` is enforced: when the reply
would arrive after the timeout the call is canceled and reported as
`timeoutExpiry` (the reply is never surfaced), distinct from `connError`. -/
def transportCall (status : Option Nat) (latency timeout : Nat) : RawOutcome :=
  match status with
  | none => .connError
  | some s => if timeout < latency then .timeoutExpiry else .http s

/-! ## Frontend `APIClient` (lib/api.ts, embedded in `ImageEditing.tsx`) -/

/-- The methods defined on the `APIClient` class, in source order. -/
def apiClientMethods : List String :=
  ["healthCheck", "generateImage", "editImage", "textToSpeech",
   "speechToText", "generateText", "generateEmbedding",
   "generateTextToVideo", "generateImageToVideo"]

/-- Field names of the `LLMResponse` interface, in declaration order. -/
def llmResponseFields : List String :=
  ["response", "model", "tokens_used", "stop_reason"]

/-- Field names of the `EmbeddingResponse` interface, in declaration order. -/
def embeddingResponseFields : List String :=
  ["embedding", "dimension", "model", "tokens_used"]

/-- Field names of the `STTResponse` interface, in declaration order. -/
def sttResponseFields : List String :=
  ["text", "language", "confidence", "model"]

/-- The client-visible response contract per task, from the `APIClient`
method signatures: JSON-returning operations expose the typed interface's
fields; binary operations (`generateImage`, `editImage`, `textToSpeech`,
`generateTextToVideo`, `generateImageToVideo`) resolve to a raw `Blob`
carrying no JSON fields at all (`none`). -/
def responseFieldsOf : Task → Option (List String)
  | .textGen => some llmResponseFields
  | .embedding => some embeddingResponseFields
  | .stt => some sttResponseFields
  | .tts => none
  | .imageGenerate => none
  | .imageEdit => none
  | .textToVideo => none
  | .imageToVideo => none

/-! ## Image-edit request (`ImageEditRequest` in lib/api.ts) -/

/-- The `ImageEditRequest` interface: `image` and `prompt` required, the
rest optional; numeric fields abstracted to `Nat`-valued options. -/
structure ImageEditRequest where
  image : String
  prompt : String
  mask : Option String
  model : Option String
  negative_prompt : Option String
  strength : Option Nat
  num_inference_steps : Option Nat
  guidance_scale : Option Nat
deriving DecidableEq

/-- The upstream operation an image-edit request maps to. -/
inductive EditOp where
  | inpainting
  | imageToImage
deriving DecidableEq

/-- Modelled from the spec: the ImageEdit adapter's operation selection (the
backend adapter is not in the provided sources) — mask presence is the sole
discriminator: a mask selects inpainting, no mask selects image-to-image. -/
def selectEditOp (r : ImageEditRequest) : EditOp :=
  if r.mask.isSome then .inpainting else .imageToImage

/-! ## Payload construction (`handleGenerate` in `ImageGeneration.tsx` and
`APIClient.generateImageToVideo`) -/

/-- The generation parameters held in `ImageGeneration.tsx` component state
(prompt, negative prompt, dimensions, steps, guidance scale; the guidance
scale is kept as its serialized string). -/
structure ImageGenParams where
  prompt : String
  negativePrompt : String
  width : Nat
  height : Nat
  steps : Nat
  guidanceScale : String
deriving DecidableEq

/-- The request body built by `handleGenerate`, as ordered key/value pairs:
`negative_prompt` is `negativePrompt || undefined`, so an empty string is
omitted; the other fields are always present. -/
def buildImagePayload (p : ImageGenParams) (model : String) :
    List (String × String) :=
  [("prompt", p.prompt)]
  ++ (if p.negativePrompt = "" then [] else [("negative_prompt", p.negativePrompt)])
  ++ [("model", model),
      ("width", toString p.width),
      ("height", toString p.height),
      ("num_inference_steps", toString p.steps),
      ("guidance_scale", p.guidanceScale)]

/-- The multipart form built by `APIClient.generateImageToVideo`: the image
always, then `prompt`/`duration`/`fps`/`num_inference_steps` only when
truthy (absent, empty-string and zero values are skipped, matching the
JavaScript `if (request.field)` guards). -/
def buildImageToVideoForm (image : String) (prompt : Option String)
    (dur fps steps : Option Nat) : List (String × String) :=
  [("image", image)]
  ++ (match prompt with
      | some s => if s = "" then [] else [("prompt", s)]
      | none => [])
  ++ (match dur with
      | some d => if d = 0 then [] else [("duration", toString d)]
      | none => [])
  ++ (match fps with
      | some v => if v = 0 then [] else [("fps", toString v)]
      | none => [])
  ++ (match steps with
      | some v => if v = 0 then [] else [("num_inference_steps", toString v)]
      | none => [])

/-! ## Chat page (`Chat.tsx`) -/

/-- Message roles in `Chat.tsx`. -/
inductive Role where
  | system
  | user
  | assistant
deriving DecidableEq

/-- A chat message. -/
structure Message where
  role : Role
  content : String
deriving DecidableEq

/-- The model-selection state of the Chat page: the `availableModels`
options (value/label pairs) and the selected `model`. -/
structure ChatModelsState where
  availableModels : List (String × String)
  model : String
deriving DecidableEq

/-- The initial state: `useState<ModelOption[]>([])` and `useState('')`. -/
def initialChatModelsState : ChatModelsState := ⟨[], ""⟩

/-- The label derived for a model id in `fetchModels`:
`m.split('/').pop() || m`. -/
def labelOf (m : String) : String :=
  match (m.splitOn "/").getLast? with
  | some s => if s = "" then m else s
  | none => m

/-- The `fetchModels` effect body: `getModels?` is `some models` when the
`getModels` call resolves with the server's LLM model list and `none` when
it throws; on a throw the catch branch only logs and toasts, leaving the
state unchanged; on success the options are stored and the first becomes
the selected model. -/
def fetchModelsEffect (getModels? : Option (List String))
    (st : ChatModelsState) : ChatModelsState :=
  match getModels? with
  | none => st
  | some llm =>
    let opts := llm.map (fun m => (m, labelOf m))
    match opts with
    | [] => { st with availableModels := opts }
    | o :: _ => { availableModels := opts, model := o.1 }

/-- What happens on Chat mount: `fetchModels` invokes `apiClient.getModels()`;
the call resolves only if `APIClient` defines a `getModels` method, and
throws otherwise (property access on the instance yields `undefined`, whose
invocation raises a `TypeError` caught by the catch branch). -/
def mountChatModels (serverModels : List String) : ChatModelsState :=
  if "getModels" ∈ apiClientMethods then
    fetchModelsEffect (some serverModels) initialChatModelsState
  else
    fetchModelsEffect none initialChatModelsState

/-- The model `Select`'s disabled attribute:
`disabled={availableModels.length === 0}`. -/
def modelSelectDisabled (st : ChatModelsState) : Bool :=
  st.availableModels.length == 0

/-- The `!input.trim()` guard of `handleSend`: the trimmed input is empty
exactly when every character is whitespace. -/
def trimmedEmpty (s : String) : Bool :=
  s.toList.all Char.isWhitespace

/-- The `handleSend` handler's effect on the `messages` state: a
whitespace-only input returns early; otherwise the user message is appended
before the request, and then either the assistant message is appended
(`result = some resp`) or the catch branch drops the last message again
(`prev.slice(0, -1)`, `result = none`). -/
def handleSend (messages : List Message) (input : String)
    (result : Option String) : List Message :=
  if trimmedEmpty input then messages
  else
    let appended := messages ++ [⟨.user, input⟩]
    match result with
    | some resp => appended ++ [⟨.assistant, resp⟩]
    | none => appended.dropLast

/-! ## Retry-policy lemmas -/

/-- A first-attempt success is returned immediately, with one call and no
delay, for any fuel. -/
lemma retryGo_success (f : Nat → Classified) (cfg : RetryConfig) (n : Nat)
    (raw : RawOutcome) (h : f n = .success raw) :
    ∀ fuel, retryGo f cfg n fuel = (.success raw, n, []) := by
  intro fuel
  cases fuel with
  | zero => simp [retryGo, h]
  | succ k => simp [retryGo, h]

/-- A first-attempt permanent failure is returned immediately, with one call
and no delay, for any fuel. -/
lemma retryGo_permanent (f : Nat → Classified) (cfg : RetryConfig) (n : Nat)
    (r : String) (h : f n = .permanentFailure r) :
    ∀ fuel, retryGo f cfg n fuel = (.permanentFailure r, n, []) := by
  intro fuel
  cases fuel with
  | zero => simp [retryGo, h]
  | succ k => simp [retryGo, h]

/-- Shifting a map over `range`. -/
lemma map_shift_range (d : Nat → Nat) (n k : Nat) :
    (List.range (k + 1)).map (fun i => d (n + i)) =
      d n :: (List.range k).map (fun i => d (n + 1 + i)) := by
  rw [List.range_succ_eq_map, List.map_cons, List.map_map]
  refine congrArg₂ _ (by simp) ?_
  refine List.map_congr_left ?_
  intro i _
  simp only [Function.comp_apply]
  exact congrArg d (by omega)

/-- Against an always-transient attempt function the retry loop uses all its
fuel, attempting `fuel + 1` times from attempt `n` and sleeping exactly the
spec's backoff schedule. -/
lemma retryGo_const_transient (f : Nat → Classified) (cfg : RetryConfig)
    (r : String) (h : ∀ n, f n = .transientFailure r) :
    ∀ fuel n, retryGo f cfg n fuel =
      (.transientFailure r, n + fuel,
        (List.range fuel).map (fun i => backoffDelay cfg (n + i))) := by
  intro fuel
  induction fuel with
  | zero => intro n; simp [retryGo, h n]
  | succ k ih =>
    intro n
    simp only [retryGo, h n, ih (n + 1),
      map_shift_range (backoffDelay cfg) n k, Prod.mk.injEq]
    exact ⟨trivial, by omega, trivial⟩

/-- With at least one allowed multiplier the backoff schedule is monotone
in the attempt number. -/
lemma backoffDelay_mono (cfg : RetryConfig) (hm : 1 ≤ cfg.multiplier) :
    Monotone (backoffDelay cfg) := by
  intro i j hij
  unfold backoffDelay
  exact min_le_min
    (Nat.mul_le_mul_left _ (Nat.pow_le_pow_right hm (by omega))) le_rfl

/-- C1: every inference operation is guarded by the retry policy: a
classified transient failure sleeps `min (baseDelay * multiplier^(n-1))
maxDelay` and retries up to `maxAttempts` total tries (4 in the default
configuration), stopping immediately on a success or a permanent failure;
against a transport that always answers HTTP 503 exactly `maxAttempts`
calls are made, with a non-decreasing delay schedule capped at `maxDelay`. -/
theorem retry_policy_503 (cfg : RetryConfig) (hA : 1 ≤ cfg.maxAttempts)
    (hm : 1 ≤ cfg.multiplier) (transport : Task → String → Nat → RawOutcome)
    (h503 : ∀ t m n, transport t m n = .http 503) (t : Task) (m : String) :
    defaultRetryConfig.maxAttempts = 4
    ∧ (withRetry (fun n => classify (transport t m n)) cfg).2.1 = cfg.maxAttempts
    ∧ (withRetry (fun n => classify (transport t m n)) cfg).2.2 =
        (List.range (cfg.maxAttempts - 1)).map
          (fun i => min (cfg.baseDelay * cfg.multiplier ^ i) cfg.maxDelay)
    ∧ List.Sorted (· ≤ ·) (withRetry (fun n => classify (transport t m n)) cfg).2.2
    ∧ (∀ d ∈ (withRetry (fun n => classify (transport t m n)) cfg).2.2,
        d ≤ cfg.maxDelay)
    ∧ (∀ (g : Nat → Classified) raw, g 1 = .success raw →
        withRetry g cfg = (.success raw, 1, []))
    ∧ (∀ (g : Nat → Classified) r, g 1 = .permanentFailure r →
        withRetry g cfg = (.permanentFailure r, 1, [])) := by
  have hf : ∀ n, (fun n => classify (transport t m n)) n =
      Classified.transientFailure "http-5xx" := by
    intro n
    simp [h503 t m n, classify]
  have key := retryGo_const_transient _ cfg "http-5xx" hf (cfg.maxAttempts - 1) 1
  refine ⟨rfl, ?_, ?_, ?_, ?_, ?_, ?_⟩
  · rw [withRetry, key]
    simp only
    omega
  · rw [withRetry, key]
    simp only
    refine List.map_congr_left ?_
    intro i _
    simp [backoffDelay, Nat.add_comm 1 i]
  · rw [withRetry, key]
    simp only
    exact List.Pairwise.map _
      (fun a b hab => backoffDelay_mono cfg hm (by omega))
      ((List.sorted_lt_range _))
  · rw [withRetry, key]
    simp only
    intro d hd
    obtain ⟨i, _, rfl⟩ := List.mem_map.mp hd
    exact min_le_right _ _
  · intro g raw h
    rw [withRetry, retryGo_success g cfg 1 raw h]
  · intro g r h
    rw [withRetry, retryGo_permanent g cfg 1 r h]

/-- Witness for C1 at the default configuration and a concrete 503
transport. -/
theorem retry_policy_503_witness :
    1 ≤ defaultRetryConfig.maxAttempts
    ∧ 1 ≤ defaultRetryConfig.multiplier
    ∧ (withRetry (fun _ => classify (RawOutcome.http 503))
        defaultRetryConfig).2.1 = defaultRetryConfig.maxAttempts :=
  ⟨by decide, by decide,
    (retry_policy_503 defaultRetryConfig (by decide) (by decide)
      (fun _ _ _ => .http 503) (fun _ _ _ => rfl) Task.textGen "m").2.1⟩

/-! ## Orchestrator lemmas -/

/-- A candidate whose first transport call classifies as a permanent failure
gets exactly one transport call and no backoff. -/
lemma attemptModel_permanent (transport : String → Nat → RawOutcome)
    (cfg : RetryConfig) (m : String) (r : String)
    (h : classify (transport m 1) = .permanentFailure r) :
    attemptModel transport cfg m = (.permanentFailure r, 1, []) := by
  unfold attemptModel withRetry
  exact retryGo_permanent _ cfg 1 r h _

/-- A candidate whose first transport call classifies as a success gets
exactly one transport call and no backoff. -/
lemma attemptModel_success (transport : String → Nat → RawOutcome)
    (cfg : RetryConfig) (m : String) (raw : RawOutcome)
    (h : classify (transport m 1) = .success raw) :
    attemptModel transport cfg m = (.success raw, 1, []) := by
  unfold attemptModel withRetry
  exact retryGo_success _ cfg 1 raw h _

/-- C2: a permanent failure of one candidate's retried attempt advances the
Orchestrator to the next candidate instead of failing the request; with a
transport where candidate A answers HTTP 404 and candidate B answers HTTP
200, the request succeeds with `modelUsed = B`, the transport being invoked
exactly once for A and at least once for B. -/
theorem orchestrator_fallback (cfg : RetryConfig) (A B : String) (hAB : A ≠ B)
    (transport : String → Nat → RawOutcome)
    (hA4 : ∀ n, transport A n = .http 404)
    (hB2 : ∀ n, transport B n = .http 200) :
    (∀ (tr : String → Nat → RawOutcome) (cfg' : RetryConfig) (m : String)
        (rest : List String) (e a : Nat) (r : String), rest ≠ [] →
        (attemptModel tr cfg' m).1 = .permanentFailure r →
        (orchestrateGo tr cfg' (m :: rest) e a).result =
          (orchestrateGo tr cfg' rest (e + (attemptModel tr cfg' m).2.2.sum)
            (a + (attemptModel tr cfg' m).2.1)).result)
    ∧ (orchestrate transport cfg [A, B]).result =
        .succeeded B (.http 200) 0
    ∧ (orchestrate transport cfg [A, B]).callLog = [A, B]
    ∧ (orchestrate transport cfg [A, B]).callLog.count A = 1
    ∧ 1 ≤ (orchestrate transport cfg [A, B]).callLog.count B := by
  have hclA : ∀ n, classify (transport A n) =
      Classified.permanentFailure "http-4xx" := by
    intro n; rw [hA4 n]; decide
  have hclB : ∀ n, classify (transport B n) =
      Classified.success (.http 200) := by
    intro n; rw [hB2 n]; decide
  have hattA := attemptModel_permanent transport cfg A "http-4xx" (hclA 1)
  have hattB := attemptModel_success transport cfg B (.http 200) (hclB 1)
  have htrace : orchestrate transport cfg [A, B] =
      ⟨.succeeded B (.http 200) 0, [A, B]⟩ := by
    simp [orchestrate, orchestrateGo, hattA, hattB]
  refine ⟨?_, ?_, ?_, ?_, ?_⟩
  · intro tr cfg' m rest e a r hrest hperm
    cases rest with
    | nil => exact absurd rfl hrest
    | cons r' rs => simp [orchestrateGo, hperm]
  · rw [htrace]
  · rw [htrace]
  · rw [htrace]
    simp [List.count_cons, hAB, Ne.symm hAB]
  · rw [htrace]
    simp [List.count_cons]

/-- Witness for C2 with concrete candidates and transport. -/
theorem orchestrator_fallback_witness :
    ("a" : String) ≠ "b"
    ∧ (orchestrate
        (fun m _ => if m = "a" then RawOutcome.http 404 else RawOutcome.http 200)
        defaultRetryConfig ["a", "b"]).result =
        .succeeded "b" (.http 200) 0 :=
  ⟨by decide,
    (orchestrator_fallback defaultRetryConfig "a" "b" (by decide)
      (fun m _ => if m = "a" then RawOutcome.http 404 else RawOutcome.http 200)
      (fun _ => rfl) (fun _ => rfl)).2.1⟩

/-- The retry loop never turns failures into a success: if every attempt
fails, the final outcome is a failure. -/
lemma retryGo_isFailure (f : Nat → Classified) (cfg : RetryConfig)
    (hf : ∀ n, isFailure (f n) = true) :
    ∀ fuel n, isFailure (retryGo f cfg n fuel).1 = true := by
  intro fuel
  induction fuel with
  | zero => intro n; simpa [retryGo] using hf n
  | succ k ih =>
    intro n
    have h := hf n
    cases hfn : f n with
    | success raw => rw [hfn] at h; simp [isFailure] at h
    | transientFailure r =>
      simpa [retryGo, hfn] using ih (n + 1)
    | permanentFailure r =>
      simp [retryGo, hfn, isFailure]

/-- A failure's stable tag is one of the two failure tags of the error
taxonomy. -/
lemma tagOf_isFailure (o : Classified) (h : isFailure o = true) :
    tagOf o = "UpstreamTransient" ∨ tagOf o = "ModelUnavailable" := by
  cases o with
  | success raw => simp [isFailure] at h
  | transientFailure r => exact Or.inl rfl
  | permanentFailure r => exact Or.inr rfl

/-- Unfolding the orchestrator at a failing last candidate. -/
lemma orchestrateGo_last_fail (transport : String → Nat → RawOutcome)
    (cfg : RetryConfig) (m : String) (e a : Nat)
    (h : isFailure (attemptModel transport cfg m).1 = true) :
    orchestrateGo transport cfg [m] e a =
      ⟨.exhausted ⟨tagOf (attemptModel transport cfg m).1, m,
          e + (attemptModel transport cfg m).2.2.sum,
          a + (attemptModel transport cfg m).2.1⟩,
        List.replicate (attemptModel transport cfg m).2.1 m⟩ := by
  cases ho : (attemptModel transport cfg m).1 with
  | success raw => rw [ho] at h; simp [isFailure] at h
  | transientFailure r => simp [orchestrateGo, ho]
  | permanentFailure r => simp [orchestrateGo, ho]

/-- Unfolding the orchestrator at a failing non-last candidate: the chain
advances, accumulating elapsed time and attempts. -/
lemma orchestrateGo_step_fail (transport : String → Nat → RawOutcome)
    (cfg : RetryConfig) (m m' : String) (rs : List String) (e a : Nat)
    (h : isFailure (attemptModel transport cfg m).1 = true) :
    orchestrateGo transport cfg (m :: m' :: rs) e a =
      ⟨(orchestrateGo transport cfg (m' :: rs)
          (e + (attemptModel transport cfg m).2.2.sum)
          (a + (attemptModel transport cfg m).2.1)).result,
        List.replicate (attemptModel transport cfg m).2.1 m ++
          (orchestrateGo transport cfg (m' :: rs)
            (e + (attemptModel transport cfg m).2.2.sum)
            (a + (attemptModel transport cfg m).2.1)).callLog⟩ := by
  cases ho : (attemptModel transport cfg m).1 with
  | success raw => rw [ho] at h; simp [isFailure] at h
  | transientFailure r => simp [orchestrateGo, ho]
  | permanentFailure r => simp [orchestrateGo, ho]

/-- When every transport outcome classifies as a failure, the orchestrator
exhausts to a single `GatewayError` whose last-model field is the last
candidate, whose tag is one of the two stable failure tags, whose attempt
count extends the accumulator by the number of transport calls made, and
whose elapsed time extends the accumulator by the total backoff slept. -/
lemma orchestrateGo_all_fail (transport : String → Nat → RawOutcome)
    (cfg : RetryConfig)
    (hfail : ∀ m n, isFailure (classify (transport m n)) = true) :
    ∀ (cands : List String), cands ≠ [] → ∀ (e a : Nat),
      ∃ err : GatewayError,
        (orchestrateGo transport cfg cands e a).result = .exhausted err
        ∧ err.lastModel = (cands.getLast?).getD ""
        ∧ (err.tag = "UpstreamTransient" ∨ err.tag = "ModelUnavailable")
        ∧ err.attempts =
            a + (orchestrateGo transport cfg cands e a).callLog.length
        ∧ err.elapsedMillis = e + totalDelays transport cfg cands := by
  intro cands
  induction cands with
  | nil => intro h; exact absurd rfl h
  | cons m rest ih =>
    intro _ e a
    have hfm : isFailure (attemptModel transport cfg m).1 = true := by
      unfold attemptModel withRetry
      exact retryGo_isFailure _ cfg (fun n => hfail m n) _ 1
    cases rest with
    | nil =>
      rw [orchestrateGo_last_fail transport cfg m e a hfm]
      refine ⟨_, rfl, rfl, tagOf_isFailure _ hfm, ?_, ?_⟩
      · simp
      · simp [totalDelays]
    | cons m' rs =>
      rw [orchestrateGo_step_fail transport cfg m m' rs e a hfm]
      obtain ⟨err, hres, hlast, htag, hatt, hela⟩ :=
        ih (by simp) (e + (attemptModel transport cfg m).2.2.sum)
          (a + (attemptModel transport cfg m).2.1)
      refine ⟨err, hres, ?_, htag, ?_, ?_⟩
      · simpa using hlast
      · simp only [List.length_append, List.length_replicate]
        omega
      · rw [hela]
        simp [totalDelays]
        omega

/-- C5: a request whose every candidate fails yields a single coherent
`GatewayError` — carrying a stable classification tag, the last model
attempted and the total elapsed backoff time plus attempt count — and the
error surface consists of exactly those fields (no stack trace, no raw
upstream detail). -/
theorem exhausted_error_shape (transport : String → Nat → RawOutcome)
    (cfg : RetryConfig) (candidates : List String) (hne : candidates ≠ [])
    (hfail : ∀ m n, isFailure (classify (transport m n)) = true) :
    gatewayErrorFields = ["tag", "lastModel", "elapsedMillis", "attempts"]
    ∧ "stackTrace" ∉ gatewayErrorFields
    ∧ "upstreamBody" ∉ gatewayErrorFields
    ∧ ∃ err : GatewayError,
        (orchestrate transport cfg candidates).result = .exhausted err
        ∧ err.lastModel = (candidates.getLast?).getD ""
        ∧ (err.tag = "UpstreamTransient" ∨ err.tag = "ModelUnavailable")
        ∧ err.attempts = (orchestrate transport cfg candidates).callLog.length
        ∧ err.elapsedMillis = totalDelays transport cfg candidates := by
  refine ⟨rfl, by decide, by decide, ?_⟩
  have h := orchestrateGo_all_fail transport cfg hfail candidates hne 0 0
  simpa [orchestrate] using h

/-- Witness for C5: a single candidate against an always-500 transport. -/
theorem exhausted_error_shape_witness :
    (["x"] : List String) ≠ []
    ∧ ∃ err : GatewayError,
        (orchestrate (fun _ _ => RawOutcome.http 500)
          defaultRetryConfig ["x"]).result = .exhausted err
        ∧ err.lastModel = ((["x"] : List String).getLast?).getD ""
        ∧ (err.tag = "UpstreamTransient" ∨ err.tag = "ModelUnavailable")
        ∧ err.attempts = (orchestrate (fun _ _ => RawOutcome.http 500)
            defaultRetryConfig ["x"]).callLog.length
        ∧ err.elapsedMillis =
            totalDelays (fun _ _ => RawOutcome.http 500)
              defaultRetryConfig ["x"] :=
  ⟨by decide,
    (exhausted_error_shape (fun _ _ => RawOutcome.http 500) defaultRetryConfig
      ["x"] (by decide) (fun _ _ => rfl)).2.2.2⟩

/-- C6: the resolved candidate chain has no duplicate model ids, puts an
explicitly requested model at priority 0, equals exactly the configured
default-then-fallback list when no model is requested, and skips configured
entries equal to the requested model; the configured image-generation list
shipped in the frontend is itself duplicate-free. -/
theorem resolve_candidates_spec (config : List String) (hnd : config.Nodup) :
    (∀ req, (resolveCandidates config req).Nodup)
    ∧ (∀ r, (resolveCandidates config (some r)).head? = some r)
    ∧ resolveCandidates config none = config
    ∧ (∀ r, resolveCandidates config (some r) =
        r :: config.filter (fun m => m != r))
    ∧ (∀ r, r ∉ (resolveCandidates config (some r)).tail)
    ∧ imageGenerationModels.Nodup := by
  refine ⟨?_, fun r => rfl, rfl, fun r => rfl, ?_, by decide⟩
  · intro req
    cases req with
    | none => exact hnd
    | some r =>
      refine (List.nodup_cons).mpr ⟨?_, hnd.filter _⟩
      simp [List.mem_filter]
  · intro r
    simp [resolveCandidates, List.mem_filter]

/-- Witness for C6 at the concrete configured list. -/
theorem resolve_candidates_spec_witness :
    imageGenerationModels.Nodup
    ∧ resolveCandidates imageGenerationModels none = imageGenerationModels :=
  ⟨by decide, (resolve_candidates_spec imageGenerationModels (by decide)).2.2.1⟩

/-- C4: mask presence is the sole discriminator of the image-edit
operation: a mask selects inpainting, no mask selects image-to-image, and a
request carrying both `mask` and `strength` is deterministically handled as
mask-based inpainting. -/
theorem image_edit_mask_discriminator (r : ImageEditRequest) :
    (r.mask.isSome = true → selectEditOp r = .inpainting)
    ∧ (r.mask = none → selectEditOp r = .imageToImage)
    ∧ (r.mask.isSome = true → r.strength.isSome = true →
        selectEditOp r = .inpainting)
    ∧ (∀ r' : ImageEditRequest, r.mask.isSome = r'.mask.isSome →
        selectEditOp r = selectEditOp r') := by
  refine ⟨?_, ?_, ?_, ?_⟩
  · intro h; simp [selectEditOp, h]
  · intro h; simp [selectEditOp, h]
  · intro h _; simp [selectEditOp, h]
  · intro r' h; simp [selectEditOp, h]

/-- Witness for C4 at a concrete request carrying both mask and strength. -/
theorem image_edit_mask_discriminator_witness :
    (ImageEditRequest.mk "img" "p" (some "m") none none (some 5) none
        none).mask.isSome = true
    ∧ selectEditOp
        (ImageEditRequest.mk "img" "p" (some "m") none none (some 5) none
          none) = .inpainting :=
  ⟨rfl,
    (image_edit_mask_discriminator
      (ImageEditRequest.mk "img" "p" (some "m") none none (some 5) none
        none)).1 rfl⟩

/-- C8: the supplied timeout is enforced — a reply arriving after the
timeout is canceled and surfaces as `timeoutExpiry`, never exposing the
server reply — and a timeout expiry is an outcome distinct from a
connection-level error, both as raw outcomes and after classification. -/
theorem transport_timeout_distinct :
    (∀ s lat t, t < lat → transportCall (some s) lat t = .timeoutExpiry)
    ∧ (∀ s lat t, ¬ t < lat → transportCall (some s) lat t = .http s)
    ∧ (∀ lat t, transportCall none lat t = .connError)
    ∧ RawOutcome.timeoutExpiry ≠ RawOutcome.connError
    ∧ classify RawOutcome.timeoutExpiry ≠ classify RawOutcome.connError := by
  refine ⟨?_, ?_, fun _ _ => rfl, by decide, by decide⟩
  · intro s lat t h; simp [transportCall, h]
  · intro s lat t h; simp [transportCall, h]

/-- Witness for C8 at a concrete late reply. -/
theorem transport_timeout_distinct_witness :
    (3 : Nat) < 5 ∧ transportCall (some 200) 5 3 = .timeoutExpiry :=
  ⟨by decide, transport_timeout_distinct.1 200 5 3 (by decide)⟩

/-- C3 counterexample: the client-visible `LLMResponse` carries neither a
`modelUsed` nor an `elapsedMillis` field, and the successful image
generation response is a raw blob with no JSON fields at all — refuting the
claim that every successful response carries `modelUsed` and
`elapsedMillis`. -/
theorem response_metadata_counterexample :
    responseFieldsOf Task.textGen = some llmResponseFields
    ∧ "modelUsed" ∉ llmResponseFields
    ∧ "elapsedMillis" ∉ llmResponseFields
    ∧ responseFieldsOf Task.imageGenerate = none :=
  ⟨rfl, by decide, by decide, rfl⟩

/-- C3 amended: every JSON-returning operation's response carries a `model`
string field (named `model`, not `modelUsed`), and no response type carries
an `elapsedMillis` or `modelUsed` field; binary operations return a raw
blob with no metadata fields. -/
theorem response_metadata_amended :
    ∀ (t : Task) (fields : List String), responseFieldsOf t = some fields →
      "model" ∈ fields ∧ "elapsedMillis" ∉ fields ∧ "modelUsed" ∉ fields := by
  intro t fields h
  cases t <;> simp only [responseFieldsOf] at h <;> first
    | exact Option.noConfusion h
    | (cases h; exact ⟨by decide, by decide, by decide⟩)

/-- Witness for the amended C3 at the text-generation response. -/
theorem response_metadata_amended_witness :
    responseFieldsOf Task.textGen = some llmResponseFields
    ∧ ("model" ∈ llmResponseFields ∧ "elapsedMillis" ∉ llmResponseFields
        ∧ "modelUsed" ∉ llmResponseFields) :=
  ⟨rfl, response_metadata_amended Task.textGen llmResponseFields rfl⟩

/-- C7: payload construction is a pure function of the request — building
twice yields identical payloads — and for the model-carrying payload the
built bodies for two candidates are identical except for the substituted
`model` entry. -/
theorem build_payload_pure (p : ImageGenParams) :
    (∀ m, buildImagePayload p m = buildImagePayload p m)
    ∧ (∃ pre post : List (String × String),
        (∀ m, buildImagePayload p m = pre ++ ("model", m) :: post)
        ∧ (∀ kv ∈ pre, kv.1 ≠ "model") ∧ (∀ kv ∈ post, kv.1 ≠ "model"))
    ∧ (∀ (img : String) (pr : Option String) (d f s : Option Nat),
        buildImageToVideoForm img pr d f s =
          buildImageToVideoForm img pr d f s) := by
  refine ⟨fun _ => rfl, ?_, fun _ _ _ _ _ => rfl⟩
  refine ⟨[("prompt", p.prompt)] ++
      (if p.negativePrompt = "" then []
        else [("negative_prompt", p.negativePrompt)]),
    [("width", toString p.width), ("height", toString p.height),
      ("num_inference_steps", toString p.steps),
      ("guidance_scale", p.guidanceScale)], ?_, ?_, ?_⟩
  · intro m; simp [buildImagePayload]
  · intro kv hkv
    by_cases h : p.negativePrompt = "" <;> simp [h] at hkv
    · subst hkv; simp
    · rcases hkv with rfl | rfl <;> simp
  · intro kv hkv
    simp at hkv
    rcases hkv with rfl | rfl | rfl | rfl <;> simp

/-- Witness for C7 at concrete generation parameters and candidates. -/
theorem build_payload_pure_witness :
    buildImagePayload ⟨"cat", "", 512, 512, 50, "7.5"⟩ "m1" =
      buildImagePayload ⟨"cat", "", 512, 512, 50, "7.5"⟩ "m1" :=
  (build_payload_pure ⟨"cat", "", 512, 512, 50, "7.5"⟩).1 "m1"

/-- C9: `APIClient` defines no `getModels` method, so the Chat page's
model-fetch effect throws on every mount; the catch branch leaves the state
untouched: `availableModels` stays empty, `model` stays the empty string,
and the model selector stays disabled. -/
theorem chat_get_models_missing (serverModels : List String) :
    "getModels" ∉ apiClientMethods
    ∧ mountChatModels serverModels = initialChatModelsState
    ∧ (mountChatModels serverModels).availableModels = []
    ∧ (mountChatModels serverModels).model = ""
    ∧ modelSelectDisabled (mountChatModels serverModels) = true := by
  have h : "getModels" ∉ apiClientMethods := by decide
  have hm : mountChatModels serverModels = initialChatModelsState := by
    simp [mountChatModels, h, fetchModelsEffect]
  exact ⟨h, hm, by rw [hm]; rfl, by rw [hm]; rfl, by rw [hm]; rfl⟩

/-- C10: in Chat's `handleSend`, a failed `generateText` call leaves the
`messages` state exactly as it was before the handler ran — the appended
user message is removed again and no assistant message is added — while on
success exactly one user and one assistant message are appended, in that
order. -/
theorem chat_send_rollback (messages : List Message) (input : String)
    (h : trimmedEmpty input = false) :
    handleSend messages input none = messages
    ∧ (∀ resp, handleSend messages input (some resp) =
        messages ++ [⟨.user, input⟩, ⟨.assistant, resp⟩]) := by
  constructor
  · simp [handleSend, h]
  · intro resp; simp [handleSend, h]

/-- Witness for C10 at the initial system message and a concrete input. -/
theorem chat_send_rollback_witness :
    trimmedEmpty "hello" = false
    ∧ handleSend [⟨.system, "You are a helpful AI assistant."⟩] "hello" none
        = [⟨.system, "You are a helpful AI assistant."⟩] :=
  ⟨by decide,
    (chat_send_rollback [⟨.system, "You are a helpful AI assistant."⟩]
      "hello" (by decide)).1⟩

end Mix
